import Mathlib

/-!
Shallow embedding of `src/config.py` of the zookeeper-k8s-operator repository
(class `ZooKeeperConfig` and its module-level constants), together with proofs
about the configuration-synthesis claims.

Modelling conventions:
* Python strings are Lean `String`s; `sub in s` is `pyIn sub s`.
* `str.split("\n")` is `pySplitNL`; `str.splitlines()` is `pySplitlines`
  (the file contents handled here are produced with "\n" separators, so only
  the "\n" separator is modelled).
* `dict.get(k, None)` lookups on the peer-relation databag become a function
  `String → Option String`; Python f-string interpolation of a possibly-None
  value is `pyStr` (`None` renders as the four characters "None").
* The charm/relation state read by `ZooKeeperConfig` (config values, tls
  manager fields, quorum field, the pulled `zookeeper.properties` contents)
  is packaged in `CharmState`; `pull` raising `PathError` is modelled as the
  contents being `Option.none`.
-/

namespace ZK

/-- Python `sub in s` substring test on strings. -/
def pyIn (sub s : String) : Bool :=
  s.data.tails.any (fun t => sub.data.isPrefixOf t)

/-- Split a character list at every occurrence of `c`, keeping empty chunks
(the behaviour of Python `str.split(sep)` for a one-character separator). -/
def splitOnChar (c : Char) : List Char → List (List Char)
  | [] => [[]]
  | x :: xs =>
    match splitOnChar c xs with
    | [] => [[]]
    | r :: rs => if x = c then [] :: r :: rs else (x :: r) :: rs

/-- Python `s.split("\n")`. -/
def pySplitNL (s : String) : List String :=
  (splitOnChar (Char.ofNat 10) s.data).map (fun l => String.mk l)

/-- Python `s.splitlines()` for "\n"-separated content: like `split("\n")`
but without the empty chunk a trailing newline would produce. -/
def pySplitlines (s : String) : List String :=
  let parts := pySplitNL s
  if parts.getLast? = some "" then parts.dropLast else parts

/-- Python f-string rendering of an optional value (`None` prints as "None"). -/
def pyStr : Option String → String
  | none => "None"
  | some s => s

/-- `DEFAULT_PROPERTIES` module constant of `config.py` (verbatim). -/
def DEFAULT_PROPERTIES : String :=
  "\nsyncEnabled=true\nmaxClientCnxns=60\nminSessionTimeout=4000\nmaxSessionTimeout=40000\nautopurge.snapRetainCount=3\nautopurge.purgeInterval=0\nreconfigEnabled=true\nstandaloneEnabled=false\n4lw.commands.whitelist=mntr,srvr\nDigestAuthenticationProvider.digestAlg=SHA3-256\nquorum.auth.enableSasl=true\nquorum.auth.learnerRequireSasl=true\nquorum.auth.serverRequireSasl=true\nauthProvider.sasl=org.apache.zookeeper.server.auth.SASLAuthenticationProvider\naudit.enable=true"

/-- `TLS_PROPERTIES` module constant of `config.py` (verbatim; note the
leading and trailing newline). -/
def TLS_PROPERTIES : String :=
  "\nsecureClientPort=2182\nssl.clientAuth=none\nssl.quorum.clientAuth=none\nssl.client.enable=true\nclientCnxnSocket=org.apache.zookeeper.ClientCnxnSocketNetty\nserverCnxnFactory=org.apache.zookeeper.server.NettyServerCnxnFactory\nssl.quorum.hostnameVerification=false\nssl.hostnameVerification=false\nssl.trustStore.type=JKS\nssl.keyStore.type=PKCS12\n"

/-- The external state `ZooKeeperConfig` reads: charm config values, tls
manager fields, the cluster quorum field, and the current contents of the
`zookeeper.properties` file on the unit (`none` when `pull` raises
`PathError`). -/
structure CharmState where
  init_limit : Int
  sync_limit : Int
  tick_time : Int
  data_dir : String
  tls_enabled : Bool
  tls_upgrading : Bool
  keystore_password : String
  quorum : String
  properties_file : Option String

/-- `self.default_config_path`. -/
def default_config_path (s : CharmState) : String :=
  s.data_dir ++ "/config"

/-- `self.keystore_filepath`. -/
def keystore_filepath (s : CharmState) : String :=
  default_config_path s ++ "/keystore.p12"

/-- `self.truststore_filepath`. -/
def truststore_filepath (s : CharmState) : String :=
  default_config_path s ++ "/truststore.jks"

/-- `ZooKeeperConfig.current_dynamic_config_file`: on `PathError` (modelled as
`none`) return the default pointer; otherwise return the first line of the
pulled file containing "dynamicConfigFile", falling back to the same
default. -/
def current_dynamic_config_file (config_path : String) (file : Option String) : String :=
  match file with
  | none => "dynamicConfigFile=" ++ config_path ++ "/zookeeper-dynamic.properties"
  | some contents =>
    match (pySplitlines contents).find? (fun line => pyIn "dynamicConfigFile" line) with
    | some line => line
    | none => "dynamicConfigFile=" ++ config_path ++ "/zookeeper-dynamic.properties"

/-- The first block of `ZooKeeperConfig.zookeeper_properties`: tuning lines,
`DEFAULT_PROPERTIES.split("\n")`, the data/log dirs and the dynamic pointer. -/
def base_properties (s : CharmState) : List String :=
  ["initLimit=" ++ toString s.init_limit,
   "syncLimit=" ++ toString s.sync_limit,
   "tickTime=" ++ toString s.tick_time]
  ++ pySplitNL DEFAULT_PROPERTIES
  ++ ["dataDir=" ++ default_config_path s ++ "/data",
      "dataLogDir=" ++ default_config_path s ++ "/log",
      current_dynamic_config_file (default_config_path s) s.properties_file]

/-- The lines appended by `zookeeper_properties` when `self.charm.tls.enabled`:
`TLS_PROPERTIES.split("\n")` plus the location and password lines (the
`ssl.keyStore.location` line is appended twice, exactly as in the source). -/
def tls_appended_lines (s : CharmState) : List String :=
  pySplitNL TLS_PROPERTIES ++
  ["ssl.quorum.keyStore.location=" ++ keystore_filepath s,
   "ssl.quorum.trustStore.location=" ++ truststore_filepath s,
   "ssl.keyStore.location=" ++ keystore_filepath s,
   "ssl.trustStore.location=" ++ truststore_filepath s,
   "ssl.keyStore.location=" ++ keystore_filepath s,
   "ssl.quorum.keyStore.password=" ++ s.keystore_password,
   "ssl.quorum.trustStore.password=" ++ s.keystore_password,
   "ssl.keyStore.password=" ++ s.keystore_password,
   "ssl.trustStore.password=" ++ s.keystore_password]

/-- `ZooKeeperConfig.zookeeper_properties`. -/
def zookeeper_properties (s : CharmState) : List String :=
  let properties := base_properties s
  let properties := if s.tls_enabled then properties ++ tls_appended_lines s else properties
  let properties := if s.tls_upgrading then properties ++ ["portUnification=true"] else properties
  if s.quorum = "ssl" then properties ++ ["sslQuorum=true"] else properties

/-- `ZooKeeperConfig.build_static_properties`: keep the properties in which
neither "clientPort" nor "secureClientPort" occurs as a substring. -/
def build_static_properties (properties : List String) : List String :=
  properties.filter (fun prop => !(pyIn "clientPort" prop) && !(pyIn "secureClientPort" prop))

/-- The loop body of `ZooKeeperConfig.jaas_users`: one relation produces a
`user_relation-<id>="<password>"` line when the databag holds a truthy
password for it, and nothing otherwise. -/
def jaas_user_line (app_data : String → Option String) (rid : Nat) : Option String :=
  let username := "relation-" ++ toString rid
  match app_data username with
  | none => none
  | some password =>
    if password = "" then none
    else some ("user_" ++ username ++ "=\"" ++ password ++ "\"")

/-- `ZooKeeperConfig.jaas_users`: empty when there are no client relations,
otherwise the lines of the relations whose password resolved. -/
def jaas_users (client_relation_ids : List Nat) (app_data : String → Option String) :
    List String :=
  if client_relation_ids = [] then []
  else client_relation_ids.filterMap (jaas_user_line app_data)

/-- `ZooKeeperConfig.jaas_config`: the JAAS file text, with the sync/super
passwords interpolated (a missing databag value renders as "None"). -/
def jaas_config (client_relation_ids : List Nat) (app_data : String → Option String) :
    String :=
  let sync_password := pyStr (app_data "sync-password")
  let super_password := pyStr (app_data "super-password")
  let users := String.intercalate "\n" (jaas_users client_relation_ids app_data)
  "\n            QuorumServer \x7b\n                org.apache.zookeeper.server.auth.DigestLoginModule required\n                user_sync=\"" ++ sync_password
  ++ "\";\n            \x7d;\n            QuorumLearner \x7b\n                org.apache.zookeeper.server.auth.DigestLoginModule required\n                username=\"sync\"\n                password=\"" ++ sync_password
  ++ "\";\n            \x7d;\n            Server \x7b\n                org.apache.zookeeper.server.auth.DigestLoginModule required\n                " ++ users
  ++ "\n                user_super=\"" ++ super_password
  ++ "\";\n            \x7d;\n        "

/-- The key of a `key=value` property line: the text before the first "=".
This notion is taken from the specification wording (which speaks of the
property KEY); `build_static_properties` itself never computes it. -/
def prop_key (line : String) : String :=
  String.mk ((splitOnChar (Char.ofNat 61) line.data).headD [])

/-- A concrete TLS-enabled state used to evaluate the assembler. -/
def example_tls_state : CharmState :=
  { init_limit := 10, sync_limit := 5, tick_time := 3000,
    data_dir := "/var/lib/zookeeper", tls_enabled := true, tls_upgrading := false,
    keystore_password := "pass", quorum := "ssl", properties_file := none }

/-- A concrete state whose tuning values are non-positive. -/
def invalid_tuning_state : CharmState :=
  { init_limit := 0, sync_limit := -1, tick_time := 2000,
    data_dir := "/var/lib/zookeeper", tls_enabled := false, tls_upgrading := false,
    keystore_password := "", quorum := "non-ssl", properties_file := none }

/-! ## Helper lemmas -/

lemma append_ne (a b : String) (h : a.data.isPrefixOf b.data = false) (x : String) :
    a ++ x ≠ b := by
  intro hx
  have hd : a.data ++ x.data = b.data := by
    rw [← String.data_append]
    exact congrArg String.data hx
  have hp : a.data.isPrefixOf b.data = true := by
    rw [ List.isPrefixOf_iff_prefix]
    exact ⟨x.data, hd⟩
  rw [h] at hp
  exact Bool.false_ne_true hp

lemma append2_ne (a b : String) (h : a.data.isPrefixOf b.data = false) (x y : String) :
    a ++ x ++ y ≠ b := by
  rw [String.append_assoc]
  exact append_ne a b h (x ++ y)

lemma pyIn_eq_true_iff (sub s : String) : pyIn sub s = true ↔ sub.data <:+: s.data := by
  unfold pyIn
  rw [List.any_eq_true]
  constructor
  · rintro ⟨t, ht, hp⟩
    rw [ List.isPrefixOf_iff_prefix] at hp
    rw [List.mem_tails] at ht
    exact List.infix_iff_prefix_suffix.mpr ⟨t, hp, ht⟩
  · intro hinf
    rcases List.infix_iff_prefix_suffix.mp hinf with ⟨t, hp, hs⟩
    refine ⟨t, (List.mem_tails _ _).mpr hs, ?_⟩
    rw [ List.isPrefixOf_iff_prefix]
    exact hp

lemma pyIn_append_left (sub a b : String) (h : pyIn sub a = true) :
    pyIn sub (a ++ b) = true := by
  rw [pyIn_eq_true_iff] at h ⊢
  rw [String.data_append]
  exact h.trans ⟨[], b.data, by simp⟩

lemma pyIn_append_right (sub a b : String) (h : pyIn sub b = true) :
    pyIn sub (a ++ b) = true := by
  rw [pyIn_eq_true_iff] at h ⊢
  rw [String.data_append]
  exact h.trans ⟨a.data, [], by simp⟩

lemma ne_of_pyIn_ne {p a b : String} (ha : pyIn p a = true) (hb : pyIn p b = false) :
    a ≠ b := by
  intro h
  rw [h, hb] at ha
  exact Bool.false_ne_true ha

lemma pyIn_dynamic_pointer (config_path : String) (file : Option String) :
    pyIn "dynamicConfigFile" (current_dynamic_config_file config_path file) = true := by
  have hdef : pyIn "dynamicConfigFile"
      ("dynamicConfigFile=" ++ config_path ++ "/zookeeper-dynamic.properties") = true :=
    pyIn_append_left _ _ _ (pyIn_append_left _ _ _ (by decide))
  cases file with
  | none => exact hdef
  | some contents =>
    cases hf : (pySplitlines contents).find? (fun line => pyIn "dynamicConfigFile" line) with
    | none => simpa [current_dynamic_config_file, hf] using hdef
    | some line =>
      have hline := List.find?_some hf
      simpa [current_dynamic_config_file, hf] using hline

lemma find?_eq_first {α : Type} (p : α → Bool) (l1 l2 : List α) (a : α)
    (h1 : ∀ x ∈ l1, p x = false) (ha : p a = true) :
    (l1 ++ a :: l2).find? p = some a := by
  induction l1 with
  | nil =>
    rw [List.nil_append]
    simp [List.find?, ha]
  | cons x xs ih =>
    have hx := h1 x (List.mem_cons_self x xs)
    rw [List.cons_append]
    simp only [List.find?, hx]
    exact ih (fun y hy => h1 y (List.mem_cons_of_mem x hy))

/-! ## Claim C7: the static/dynamic partitioner is idempotent -/

/-- C7: `build_static_properties (build_static_properties L) = build_static_properties L`
for every property list `L`: filtering by the same predicate twice equals
filtering once. -/
theorem c7_partition_idempotent (properties : List String) :
    build_static_properties (build_static_properties properties)
      = build_static_properties properties := by
  unfold build_static_properties
  rw [List.filter_filter]
  simp only [Bool.and_self]

/-! ## Claim C8: what the partitioner removes -/

/-- C8 counterexample: the partitioner drops the line "a=clientPort" although
its key is "a", not "clientPort" and not "secureClientPort" — removal is by
substring containment, not by key. -/
theorem c8_counterexample :
    build_static_properties ["a=clientPort"] = [] ∧
    prop_key "a=clientPort" = "a" ∧
    prop_key "a=clientPort" ≠ "clientPort" ∧
    prop_key "a=clientPort" ≠ "secureClientPort" := by decide

/-- C8 (amended): the partitioner removes exactly the lines in which
"clientPort" or "secureClientPort" occurs as a substring (rather than as the
key), and it keeps the remaining lines in order and unchanged (the result is
a sublist of the input). -/
theorem c8_substring_filter (properties : List String) :
    (build_static_properties properties).Sublist properties ∧
    (∀ prop, prop ∈ build_static_properties properties ↔
      (prop ∈ properties ∧ pyIn "clientPort" prop = false ∧
        pyIn "secureClientPort" prop = false)) := by
  constructor
  · exact List.filter_sublist properties
  · intro prop
    simp [build_static_properties, List.mem_filter]

/-! ## Claim C3: the tracker returns the first matching line verbatim -/

/-- C3: when the existing static-file contents have at least one line in which
"dynamicConfigFile" occurs (here: the lines split as `l1 ++ line :: l2` with no
occurrence in `l1` and an occurrence in `line`), `current_dynamic_config_file`
returns that first matching line itself, byte-for-byte, whatever suffix its
value carries. -/
theorem c3_first_dynamic_line (config_path contents : String) (l1 l2 : List String)
    (line : String)
    (hsplit : pySplitlines contents = l1 ++ line :: l2)
    (hbefore : ∀ x ∈ l1, pyIn "dynamicConfigFile" x = false)
    (hline : pyIn "dynamicConfigFile" line = true) :
    current_dynamic_config_file config_path (some contents) = line := by
  have hf : (pySplitlines contents).find? (fun l => pyIn "dynamicConfigFile" l)
      = some line := by
    rw [hsplit]
    exact find?_eq_first _ l1 l2 line hbefore hline
  simp [current_dynamic_config_file, hf]

/-- C3 witness: a file whose second line is
"dynamicConfigFile=/cfg/zookeeper-dynamic-v7.properties" is returned exactly. -/
theorem c3_first_dynamic_line_witness :
    pySplitlines "clientPort=2181\ndynamicConfigFile=/cfg/zookeeper-dynamic-v7.properties"
      = ["clientPort=2181"] ++ "dynamicConfigFile=/cfg/zookeeper-dynamic-v7.properties" :: [] ∧
    (∀ x ∈ ["clientPort=2181"], pyIn "dynamicConfigFile" x = false) ∧
    pyIn "dynamicConfigFile" "dynamicConfigFile=/cfg/zookeeper-dynamic-v7.properties" = true ∧
    current_dynamic_config_file "/var/lib/zookeeper/config"
        (some "clientPort=2181\ndynamicConfigFile=/cfg/zookeeper-dynamic-v7.properties")
      = "dynamicConfigFile=/cfg/zookeeper-dynamic-v7.properties" :=
  ⟨by decide, by decide, by decide,
    c3_first_dynamic_line "/var/lib/zookeeper/config"
      "clientPort=2181\ndynamicConfigFile=/cfg/zookeeper-dynamic-v7.properties"
      ["clientPort=2181"] [] "dynamicConfigFile=/cfg/zookeeper-dynamic-v7.properties"
      (by decide) (by decide) (by decide)⟩

/-! ## Claim C6: the tracker never fails and uses one deterministic default -/

/-- C6: `current_dynamic_config_file` is total, and returns the same default
pointer `dynamicConfigFile=<config-path>/zookeeper-dynamic.properties` both
when no static file exists (`none`) and when the file exists but no line
mentions "dynamicConfigFile". -/
theorem c6_default_pointer (config_path contents : String)
    (habsent : ∀ x ∈ pySplitlines contents, pyIn "dynamicConfigFile" x = false) :
    current_dynamic_config_file config_path none
      = "dynamicConfigFile=" ++ config_path ++ "/zookeeper-dynamic.properties" ∧
    current_dynamic_config_file config_path (some contents)
      = "dynamicConfigFile=" ++ config_path ++ "/zookeeper-dynamic.properties" := by
  constructor
  · rfl
  · have hf : (pySplitlines contents).find? (fun line => pyIn "dynamicConfigFile" line)
        = none := by
      rw [List.find?_eq_none]
      intro x hx
      simp [habsent x hx]
    simp [current_dynamic_config_file, hf]

/-- C6 witness: on the file "a=1\nb=2" (no dynamic pointer) and on a missing
file, the tracker returns the identical default pointer. -/
theorem c6_default_pointer_witness :
    (∀ x ∈ pySplitlines "a=1\nb=2", pyIn "dynamicConfigFile" x = false) ∧
    current_dynamic_config_file "/var/lib/zookeeper/config" none
      = "dynamicConfigFile=" ++ "/var/lib/zookeeper/config" ++ "/zookeeper-dynamic.properties" ∧
    current_dynamic_config_file "/var/lib/zookeeper/config" (some "a=1\nb=2")
      = "dynamicConfigFile=" ++ "/var/lib/zookeeper/config" ++ "/zookeeper-dynamic.properties" :=
  ⟨by decide,
    (c6_default_pointer "/var/lib/zookeeper/config" "a=1\nb=2" (by decide)).1,
    (c6_default_pointer "/var/lib/zookeeper/config" "a=1\nb=2" (by decide)).2⟩

/-! ## Flag non-membership lemmas for C1 -/

set_option maxRecDepth 16384

lemma not_mem_append2 {α : Type} {a : α} {l1 l2 : List α} (h1 : a ∉ l1) (h2 : a ∉ l2) :
    a ∉ l1 ++ l2 :=
  fun h => (List.mem_append.mp h).elim h1 h2

lemma not_mem_cons2 {α : Type} {a b : α} {l : List α} (hne : a ≠ b) (h : a ∉ l) :
    a ∉ b :: l :=
  fun hc => Or.elim (List.mem_cons.mp hc) hne h

lemma pU_not_mem_default : "portUnification=true" ∉ pySplitNL DEFAULT_PROPERTIES := by decide

lemma sQ_not_mem_default : "sslQuorum=true" ∉ pySplitNL DEFAULT_PROPERTIES := by decide

lemma pU_not_mem_tls_split : "portUnification=true" ∉ pySplitNL TLS_PROPERTIES := by decide

lemma sQ_not_mem_tls_split : "sslQuorum=true" ∉ pySplitNL TLS_PROPERTIES := by decide

lemma pU_ne_sQ : ("portUnification=true" : String) ≠ "sslQuorum=true" := by decide

lemma sQ_ne_pU : ("sslQuorum=true" : String) ≠ "portUnification=true" := by decide

lemma pU_not_mem_base (s : CharmState) : "portUnification=true" ∉ base_properties s := by
  unfold base_properties
  refine not_mem_append2 (not_mem_append2 ?_ pU_not_mem_default) ?_
  · refine not_mem_cons2 ?_ (not_mem_cons2 ?_ (not_mem_cons2 ?_ (List.not_mem_nil _)))
    · exact Ne.symm (append_ne "initLimit=" "portUnification=true" (by decide) _)
    · exact Ne.symm (append_ne "syncLimit=" "portUnification=true" (by decide) _)
    · exact Ne.symm (append_ne "tickTime=" "portUnification=true" (by decide) _)
  · refine not_mem_cons2 ?_ (not_mem_cons2 ?_ (not_mem_cons2 ?_ (List.not_mem_nil _)))
    · exact Ne.symm (append2_ne "dataDir=" "portUnification=true" (by decide) _ _)
    · exact Ne.symm (append2_ne "dataLogDir=" "portUnification=true" (by decide) _ _)
    · exact Ne.symm (ne_of_pyIn_ne (pyIn_dynamic_pointer _ _) (by decide))

lemma sQ_not_mem_base (s : CharmState) : "sslQuorum=true" ∉ base_properties s := by
  unfold base_properties
  refine not_mem_append2 (not_mem_append2 ?_ sQ_not_mem_default) ?_
  · refine not_mem_cons2 ?_ (not_mem_cons2 ?_ (not_mem_cons2 ?_ (List.not_mem_nil _)))
    · exact Ne.symm (append_ne "initLimit=" "sslQuorum=true" (by decide) _)
    · exact Ne.symm (append_ne "syncLimit=" "sslQuorum=true" (by decide) _)
    · exact Ne.symm (append_ne "tickTime=" "sslQuorum=true" (by decide) _)
  · refine not_mem_cons2 ?_ (not_mem_cons2 ?_ (not_mem_cons2 ?_ (List.not_mem_nil _)))
    · exact Ne.symm (append2_ne "dataDir=" "sslQuorum=true" (by decide) _ _)
    · exact Ne.symm (append2_ne "dataLogDir=" "sslQuorum=true" (by decide) _ _)
    · exact Ne.symm (ne_of_pyIn_ne (pyIn_dynamic_pointer _ _) (by decide))

lemma pU_not_mem_tls (s : CharmState) : "portUnification=true" ∉ tls_appended_lines s := by
  unfold tls_appended_lines
  refine not_mem_append2 pU_not_mem_tls_split ?_
  refine not_mem_cons2 ?_ (not_mem_cons2 ?_ (not_mem_cons2 ?_ (not_mem_cons2 ?_
    (not_mem_cons2 ?_ (not_mem_cons2 ?_ (not_mem_cons2 ?_ (not_mem_cons2 ?_
      (not_mem_cons2 ?_ (List.not_mem_nil _)))))))))
  · exact Ne.symm (append_ne "ssl.quorum.keyStore.location=" "portUnification=true" (by decide) _)
  · exact Ne.symm (append_ne "ssl.quorum.trustStore.location=" "portUnification=true" (by decide) _)
  · exact Ne.symm (append_ne "ssl.keyStore.location=" "portUnification=true" (by decide) _)
  · exact Ne.symm (append_ne "ssl.trustStore.location=" "portUnification=true" (by decide) _)
  · exact Ne.symm (append_ne "ssl.keyStore.location=" "portUnification=true" (by decide) _)
  · exact Ne.symm (append_ne "ssl.quorum.keyStore.password=" "portUnification=true" (by decide) _)
  · exact Ne.symm (append_ne "ssl.quorum.trustStore.password=" "portUnification=true" (by decide) _)
  · exact Ne.symm (append_ne "ssl.keyStore.password=" "portUnification=true" (by decide) _)
  · exact Ne.symm (append_ne "ssl.trustStore.password=" "portUnification=true" (by decide) _)

lemma sQ_not_mem_tls (s : CharmState) : "sslQuorum=true" ∉ tls_appended_lines s := by
  unfold tls_appended_lines
  refine not_mem_append2 sQ_not_mem_tls_split ?_
  refine not_mem_cons2 ?_ (not_mem_cons2 ?_ (not_mem_cons2 ?_ (not_mem_cons2 ?_
    (not_mem_cons2 ?_ (not_mem_cons2 ?_ (not_mem_cons2 ?_ (not_mem_cons2 ?_
      (not_mem_cons2 ?_ (List.not_mem_nil _)))))))))
  · exact Ne.symm (append_ne "ssl.quorum.keyStore.location=" "sslQuorum=true" (by decide) _)
  · exact Ne.symm (append_ne "ssl.quorum.trustStore.location=" "sslQuorum=true" (by decide) _)
  · exact Ne.symm (append_ne "ssl.keyStore.location=" "sslQuorum=true" (by decide) _)
  · exact Ne.symm (append_ne "ssl.trustStore.location=" "sslQuorum=true" (by decide) _)
  · exact Ne.symm (append_ne "ssl.keyStore.location=" "sslQuorum=true" (by decide) _)
  · exact Ne.symm (append_ne "ssl.quorum.keyStore.password=" "sslQuorum=true" (by decide) _)
  · exact Ne.symm (append_ne "ssl.quorum.trustStore.password=" "sslQuorum=true" (by decide) _)
  · exact Ne.symm (append_ne "ssl.keyStore.password=" "sslQuorum=true" (by decide) _)
  · exact Ne.symm (append_ne "ssl.trustStore.password=" "sslQuorum=true" (by decide) _)

/-! ## Claim C1: migration-stage flags -/

/-- C1: in every cluster security state the assembled list carries exactly the
flags of the current stage: "portUnification=true" is present exactly when the
cluster is upgrading (states ADD_PORT_UNIFICATION and ADD_SSL_QUORUM of the
claim have it, REMOVE_PORT_UNIFICATION and stable PLAINTEXT do not), and
"sslQuorum=true" is present exactly when the quorum mode is "ssl"
(ADD_SSL_QUORUM and REMOVE_PORT_UNIFICATION have it, the others do not). -/
theorem c1_migration_stage_flags (s : CharmState) :
    ("portUnification=true" ∈ zookeeper_properties s ↔ s.tls_upgrading = true) ∧
    ("sslQuorum=true" ∈ zookeeper_properties s ↔ s.quorum = "ssl") := by
  by_cases h1 : s.tls_enabled <;> by_cases h2 : s.tls_upgrading <;>
    by_cases h3 : s.quorum = "ssl" <;>
      simp [zookeeper_properties, h1, h2, h3, List.mem_append,
        pU_not_mem_base, pU_not_mem_tls, sQ_not_mem_base, sQ_not_mem_tls,
        pU_ne_sQ, sQ_ne_pU]

/-! ## Claim C4: no validation of tuning values -/

lemma mem_zookeeper_of_mem_base {s : CharmState} {a : String} (h : a ∈ base_properties s) :
    a ∈ zookeeper_properties s := by
  unfold zookeeper_properties
  by_cases h1 : s.tls_enabled <;> by_cases h2 : s.tls_upgrading <;>
    by_cases h3 : s.quorum = "ssl" <;>
      simp [h1, h2, h3, List.mem_append, h]

/-- C4 counterexample: with tuning values 0 and -1 the assembler does not fail
with any error: it returns the full 22-line property list, embedding the
non-positive values as "initLimit=0" and "syncLimit=-1". -/
theorem c4_counterexample :
    "initLimit=0" ∈ zookeeper_properties invalid_tuning_state ∧
    "syncLimit=-1" ∈ zookeeper_properties invalid_tuning_state ∧
    (zookeeper_properties invalid_tuning_state).length = 22 := by decide

/-- C4 (amended): the assembler performs no validation of the tuning values at
all: for every state, non-positive values included, it succeeds and the list
carries the initLimit/syncLimit/tickTime lines with the given values
verbatim. -/
theorem c4_no_tuning_validation (s : CharmState) :
    "initLimit=" ++ toString s.init_limit ∈ zookeeper_properties s ∧
    "syncLimit=" ++ toString s.sync_limit ∈ zookeeper_properties s ∧
    "tickTime=" ++ toString s.tick_time ∈ zookeeper_properties s := by
  refine ⟨mem_zookeeper_of_mem_base ?_, mem_zookeeper_of_mem_base ?_,
    mem_zookeeper_of_mem_base ?_⟩ <;> simp [base_properties]

/-! ## Claim C5: missing sync/super passwords do not fail -/

/-- C5 counterexample: with an empty databag (no sync or super password) the
auth generator does not fail: it produces the JAAS text with the literal
string `None` interpolated into the `user_sync` and `user_super` lines. -/
theorem c5_counterexample :
    pyIn "user_sync=\"None\"" (jaas_config [] (fun _ => none)) = true ∧
    pyIn "user_super=\"None\"" (jaas_config [] (fun _ => none)) = true := by decide

/-- C5 (amended): whenever the sync and super passwords are absent from the
databag, `jaas_config` still returns a configuration string, interpolating the
literal text `None` in place of each missing credential, for any set of
client relations. -/
theorem c5_missing_credentials_interpolated (client_relation_ids : List Nat)
    (app_data : String → Option String)
    (hsync : app_data "sync-password" = none)
    (hsuper : app_data "super-password" = none) :
    pyIn "user_sync=\"None\"" (jaas_config client_relation_ids app_data) = true ∧
    pyIn "user_super=\"None\"" (jaas_config client_relation_ids app_data) = true := by
  simp only [jaas_config, hsync, hsuper, pyStr]
  constructor
  · apply pyIn_append_left
    apply pyIn_append_left
    apply pyIn_append_left
    apply pyIn_append_left
    apply pyIn_append_left
    apply pyIn_append_left
    decide
  · simp only [String.append_assoc]
    apply pyIn_append_right
    apply pyIn_append_right
    apply pyIn_append_right
    apply pyIn_append_right
    apply pyIn_append_right
    apply pyIn_append_right
    decide

/-- C5 witness: the amended statement applied to the empty databag. -/
theorem c5_missing_credentials_witness :
    ((fun _ : String => (none : Option String)) "sync-password" = none) ∧
    ((fun _ : String => (none : Option String)) "super-password" = none) ∧
    (pyIn "user_sync=\"None\"" (jaas_config [7] (fun _ => none)) = true ∧
      pyIn "user_super=\"None\"" (jaas_config [7] (fun _ => none)) = true) :=
  ⟨rfl, rfl, c5_missing_credentials_interpolated [7] (fun _ => none) rfl rfl⟩

/-! ## Claim C9: zero registrations and unresolved passwords -/

/-- C9: with zero client registrations the generated JAAS text still contains
all three login-module blocks (QuorumServer, QuorumLearner, Server) and the
client-user section is empty; and a registration whose password does not
resolve in the databag contributes nothing (it is skipped, not an error). -/
theorem c9_zero_clients_complete (app_data : String → Option String) (ids : List Nat)
    (rid : Nat) (hrid : app_data ("relation-" ++ toString rid) = none) :
    jaas_users [] app_data = [] ∧
    pyIn "QuorumServer \x7b" (jaas_config [] app_data) = true ∧
    pyIn "QuorumLearner \x7b" (jaas_config [] app_data) = true ∧
    pyIn "Server \x7b" (jaas_config [] app_data) = true ∧
    jaas_users (ids ++ [rid]) app_data = jaas_users ids app_data := by
  refine ⟨rfl, ?_, ?_, ?_, ?_⟩
  · simp only [jaas_config]
    apply pyIn_append_left
    apply pyIn_append_left
    apply pyIn_append_left
    apply pyIn_append_left
    apply pyIn_append_left
    apply pyIn_append_left
    apply pyIn_append_left
    apply pyIn_append_left
    decide
  · simp only [jaas_config]
    apply pyIn_append_left
    apply pyIn_append_left
    apply pyIn_append_left
    apply pyIn_append_left
    apply pyIn_append_left
    apply pyIn_append_left
    apply pyIn_append_right
    decide
  · simp only [jaas_config]
    apply pyIn_append_left
    apply pyIn_append_left
    apply pyIn_append_left
    apply pyIn_append_left
    apply pyIn_append_right
    decide
  · have hnil : List.filterMap (jaas_user_line app_data) [rid] = [] := by
      simp [jaas_user_line, hrid]
    by_cases hids : ids = []
    · subst hids
      simp [jaas_users, jaas_user_line, hrid]
    · simp [jaas_users, hids, List.filterMap_append, hnil]

/-- C9 witness: the theorem applied to the empty databag with registration 3
unresolved. -/
theorem c9_zero_clients_witness :
    ((fun _ : String => (none : Option String)) ("relation-" ++ toString 3) = none) ∧
    (jaas_users [] (fun _ => none) = [] ∧
      pyIn "QuorumServer \x7b" (jaas_config [] (fun _ => none)) = true ∧
      pyIn "QuorumLearner \x7b" (jaas_config [] (fun _ => none)) = true ∧
      pyIn "Server \x7b" (jaas_config [] (fun _ => none)) = true ∧
      jaas_users ([] ++ [3]) (fun _ => none) = jaas_users [] (fun _ => none)) :=
  ⟨rfl, c9_zero_clients_complete (fun _ => none) [] 3 rfl⟩

/-! ## Claim C10: one password for all four keystore/truststore lines -/

lemma tls_lines_infix_props (s : CharmState) (h : s.tls_enabled = true) :
    tls_appended_lines s <:+: zookeeper_properties s := by
  unfold zookeeper_properties
  by_cases h2 : s.tls_upgrading <;> by_cases h3 : s.quorum = "ssl"
  · simp only [h, h2, h3, if_true]
    exact ⟨base_properties s, ["portUnification=true"] ++ ["sslQuorum=true"], by simp⟩
  · simp only [h, h2, h3, if_true, if_false]
    exact ⟨base_properties s, ["portUnification=true"], by simp⟩
  · simp only [h, h2, h3, if_true, if_false]
    exact ⟨base_properties s, ["sslQuorum=true"], by simp⟩
  · simp only [h, h2, h3, if_true, if_false]
    exact ⟨base_properties s, [], by simp⟩

/-- C10: when TLS is enabled the four appended password lines all carry the
one keystore password of the state — the trustStore password lines are not
sourced from any separate truststore credential (the embedding takes every
one of them from `keystore_password`, as config.py reads
`self.charm.tls.keystore_password` for all four). -/
theorem c10_single_password_source (s : CharmState) (h : s.tls_enabled = true) :
    ["ssl.quorum.keyStore.password=" ++ s.keystore_password,
     "ssl.quorum.trustStore.password=" ++ s.keystore_password,
     "ssl.keyStore.password=" ++ s.keystore_password,
     "ssl.trustStore.password=" ++ s.keystore_password] <:+: zookeeper_properties s := by
  have hfour : ["ssl.quorum.keyStore.password=" ++ s.keystore_password,
      "ssl.quorum.trustStore.password=" ++ s.keystore_password,
      "ssl.keyStore.password=" ++ s.keystore_password,
      "ssl.trustStore.password=" ++ s.keystore_password] <:+: tls_appended_lines s := by
    refine ⟨pySplitNL TLS_PROPERTIES ++
      ["ssl.quorum.keyStore.location=" ++ keystore_filepath s,
       "ssl.quorum.trustStore.location=" ++ truststore_filepath s,
       "ssl.keyStore.location=" ++ keystore_filepath s,
       "ssl.trustStore.location=" ++ truststore_filepath s,
       "ssl.keyStore.location=" ++ keystore_filepath s], [], ?_⟩
    simp [tls_appended_lines]
  exact hfour.trans (tls_lines_infix_props s h)

/-- C10 witness: the theorem applied at the concrete TLS-enabled state. -/
theorem c10_single_password_witness :
    example_tls_state.tls_enabled = true ∧
    ["ssl.quorum.keyStore.password=" ++ example_tls_state.keystore_password,
     "ssl.quorum.trustStore.password=" ++ example_tls_state.keystore_password,
     "ssl.keyStore.password=" ++ example_tls_state.keystore_password,
     "ssl.trustStore.password=" ++ example_tls_state.keystore_password]
      <:+: zookeeper_properties example_tls_state :=
  ⟨rfl, c10_single_password_source example_tls_state rfl⟩

/-! ## Claim C2: duplicate key line with TLS enabled -/

/-- C2 evaluation at the failing input: with TLS enabled the assembled list
carries the line `ssl.keyStore.location=<path>` twice (config.py appends it
both before and after the `ssl.trustStore.location` line), so the required
key `ssl.keyStore.location` appears on two lines; the transition flag is
still last at this input. -/
theorem c2_duplicate_keystore_location :
    ((zookeeper_properties example_tls_state).count
      "ssl.keyStore.location=/var/lib/zookeeper/config/keystore.p12") = 2 ∧
    (zookeeper_properties example_tls_state).getLast? = some "sslQuorum=true" := by decide

end ZK
